import Mathlib

/-!
Verification development for the unified browser-automation driver layer
(`web-automator-js`).  The definitions below are shallow embeddings of the
JavaScript source:

* `SeleniumUtils.getSmartSelector`
  (src/automator/selenium/parsers — selenium utilities module),
* `BaseSeleniumDriver` (src/automator/selenium/drivers/baseSeleniumDriver.js),
* `ChromeSeleniumDriver` (src/automator/selenium/drivers/chromeSeleniumDriver.js),
* `PlaywrightDriver` (src/automator/playwright/drivers/playwrightDriver.js),
* `PlaywrightUtils.getSelectorInfo`
  (src/automator/playwright/parsers — playwright utilities module),
* `SeleniumUtils.safeClick` / `smartWaitForElement` (selenium utilities module),
* `_generateFilename` (identical in both driver files).

Engine calls (WebDriver / Playwright / filesystem) are external collaborators;
they are modelled by oracle parameters giving their outcome, and the work a
method performs is recorded in an explicit effect trace.  Error classes are an
inductive type; each constructor corresponds to one family of `throw new
Error(...)` sites in the source (the message patterns are noted at each
definition).
-/

deriving instance DecidableEq for Except

namespace WebAutomator

/-! ## JavaScript string primitives

The JavaScript string methods the source uses, computed on the character
list of a `String` (so that every definition evaluates by kernel
reduction). -/

/-- `s.startsWith(pre)`. -/
def jsStartsWith (s pre : String) : Bool :=
  pre.data.isPrefixOf s.data

/-- `s.includes(c)` for a single character. -/
def jsContainsChar (s : String) (c : Char) : Bool :=
  s.data.contains c

/-- `s.substring(n)` / `s.slice(n)` — drop the first `n` characters. -/
def jsDrop (s : String) (n : Nat) : String :=
  String.mk (s.data.drop n)

/-- `l.split(sep)` on character lists: split at *every* occurrence of
`sep`. -/
def splitChar (sep : Char) : List Char → List (List Char)
  | [] => [[]]
  | c :: cs =>
    if c = sep then [] :: splitChar sep cs
    else
      match splitChar sep cs with
      | [] => [[c]]
      | h :: t => (c :: h) :: t

/-- `s.split(sep)` for a single-character separator. -/
def jsSplit (sep : Char) (s : String) : List String :=
  (splitChar sep s.data).map String.mk

/-- Whether `sub` occurs as a contiguous subsequence of `l`. -/
def containsSeq (sub : List Char) : List Char → Bool
  | [] => sub.isEmpty
  | l@(_ :: t) => sub.isPrefixOf l || containsSeq sub t

/-- `s.includes(sub)` for a substring. -/
def jsIncludes (s sub : String) : Bool :=
  containsSeq sub.data s.data

/-- ASCII lower-casing of one character (`String.prototype.toLowerCase`
restricted to the ASCII names used for browsers). -/
def lowerChar (c : Char) : Char :=
  if 65 ≤ c.toNat && c.toNat ≤ 90 then Char.ofNat (c.toNat + 32) else c

/-- `s.toLowerCase()`. -/
def jsToLower (s : String) : String :=
  String.mk (s.data.map lowerChar)

/-- `s.length === 0` / falsiness of a string. -/
def jsIsEmpty (s : String) : Bool :=
  s.data.isEmpty

/-- Selenium `By` locator descriptors, as produced by the selector-resolution
code (`By.xpath` / `By.id` / `By.className` / `By.css`). -/
inductive By where
  | xpath (s : String)
  | id (s : String)
  | className (s : String)
  | css (s : String)
deriving DecidableEq, Repr

/-- The attribute-equality CSS string built by the resolver branches that do
`const [attr, value] = selector.split('=')` and return
`By.css('[attr="value"]')`.  JavaScript `split('=')` splits at every `'='` and
the destructuring keeps only the first two parts, so everything after a second
`'='` is discarded; `String.splitOn` has the same splitting behaviour. -/
def attrEqualityCss (selector : String) : String :=
  let parts := jsSplit '=' selector
  "[" ++ parts.headD ("") ++ "=\"" ++ (parts.drop 1).headD ("") ++ "\"]"

/-- The guard of the bare `attr=value` branch of
`SeleniumUtils.getSmartSelector`:
`selector.includes('=') && !selector.includes('[') && !selector.includes(' ')`. -/
def attrValueGuard (selector : String) : Bool :=
  jsContainsChar selector '=' && !(jsContainsChar selector '[') &&
    !(jsContainsChar selector ' ')

/-- The contains-based text XPath built by the `text:`/`partial-text:`
branches of `SeleniumUtils.getSmartSelector`. -/
def containsTextXPath (text : String) : String :=
  "//*[contains(text(), \"" ++ text ++ "\")]"

/-- Shallow embedding of `SeleniumUtils.getSmartSelector` (selenium utilities
module).  The branch order is exactly the source order: XPath, `#` id, `.`
class, bare `attr=value`, `text:`, `partial-text:`, default CSS. -/
def getSmartSelector (selector : String) : By :=
  if jsStartsWith selector ("//") || jsStartsWith selector ("(//") then
    By.xpath selector
  else if jsStartsWith selector ("#") then
    By.id (jsDrop selector 1)
  else if jsStartsWith selector (".") then
    By.className (jsDrop selector 1)
  else if attrValueGuard selector then
    By.css (attrEqualityCss selector)
  else if jsStartsWith selector ("text:") then
    By.xpath (containsTextXPath (jsDrop selector 5))
  else if jsStartsWith selector ("partial-text:") then
    By.xpath (containsTextXPath (jsDrop selector 13))
  else
    By.css selector

/-- One resolution rule: a guard on the raw selector string and the
descriptor built when the guard is the first to match. -/
def SelectorRule : Type := (String → Bool) × (String → By)

/-- First-match-wins application of a rule list, defaulting to native CSS —
the shape in which the specification describes the resolver. -/
def firstMatch : List SelectorRule → String → By
  | [], s => By.css s
  | r :: rs, s => if r.1 s then r.2 s else firstMatch rs s

/-- The resolver's rule list in the order the code actually applies it:
XPath, ID, ClassName, bare `attr=value`, `text:`, `partial-text:`.
(The specification lists the text rules before the `attr=value` rule;
the code checks `attr=value` first.) -/
def codeOrderRules : List SelectorRule :=
  [ (fun s => jsStartsWith s ("//") || jsStartsWith s ("(//"), fun s => By.xpath s),
    (fun s => jsStartsWith s ("#"), fun s => By.id (jsDrop s 1)),
    (fun s => jsStartsWith s ("."), fun s => By.className (jsDrop s 1)),
    (fun s => attrValueGuard s, fun s => By.css (attrEqualityCss s)),
    (fun s => jsStartsWith s ("text:"),
      fun s => By.xpath (containsTextXPath (jsDrop s 5))),
    (fun s => jsStartsWith s ("partial-text:"),
      fun s => By.xpath (containsTextXPath (jsDrop s 13))) ]

/-- Shallow embedding of the selector classification inside
`BaseSeleniumDriver.findElement`: XPath, `#` id, `.` class, then *any*
selector containing `'='` (no exclusion for `'['` or spaces) becomes
attribute-equality CSS, else raw CSS.  There is no text-prefix branch. -/
def findElementLocator (selector : String) : By :=
  if jsStartsWith selector ("//") || jsStartsWith selector ("(//") then
    By.xpath selector
  else if jsStartsWith selector ("#") then
    By.id (jsDrop selector 1)
  else if jsStartsWith selector (".") then
    By.className (jsDrop selector 1)
  else if jsContainsChar selector '=' then
    By.css (attrEqualityCss selector)
  else
    By.css selector

/-- Shallow embedding of the selector classification inside
`BaseSeleniumDriver.findElements`: XPath, `#` id, `.` class, else raw CSS —
it has no `'='` branch at all. -/
def findElementsLocator (selector : String) : By :=
  if jsStartsWith selector ("//") || jsStartsWith selector ("(//") then
    By.xpath selector
  else if jsStartsWith selector ("#") then
    By.id (jsDrop selector 1)
  else if jsStartsWith selector (".") then
    By.className (jsDrop selector 1)
  else
    By.css selector

/-! ## Effects, errors, configuration and session state -/

/-- The observable work a driver method performs before returning: calls into
the underlying browser engine, filesystem work, sleeps and warning logs.
An empty trace means the method returned before doing any work. -/
inductive Effect where
  | engineLaunch
  | engineQuit
  | engineGet (url : String)
  | engineLocate (lo : By)
  | pageLocate (selector : String)
  | engineWaitEnabled
  | engineClick
  | engineSendKeys (text : String)
  | engineClear
  | engineGetText
  | engineScript (tag : String)
  | engineScreenshot
  | scrollIntoView
  | sleep (ms : Nat)
  | mkdir (dir : String)
  | writeFile (file : String)
  | warn (msg : String)
  | closePage
  | closeContext
  | closeBrowser
  | setWindowRect
deriving DecidableEq, Repr

/-- Error classes thrown by the drivers.  Each constructor stands for one
family of `throw new Error(...)` sites:
* `notStarted` — the `_ensureStarted` message
  `Driver not started. Call start() first.`;
* `notFound s` — `Element not found: s`;
* `notImplemented m` — the Selenium video-recording stub messages;
* `failedOp m` — the per-operation wrappers (`Failed to click ...`,
  `Failed to navigate to ...`, etc.), with the identifying part kept in `m`;
* `startupFailed m` — `Driver startup failed: ...` thrown by `start()`. -/
inductive Err where
  | notStarted
  | notFound (selector : String)
  | notImplemented (msg : String)
  | failedOp (msg : String)
  | startupFailed (msg : String)
deriving DecidableEq, Repr

structure WindowSize where
  width : Nat
  height : Nat
deriving DecidableEq, Repr

/-- The Chrome-specific option record that `ChromeSeleniumDriver.start`
assigns into `this.options.chromeSpecific`. -/
structure ChromeSpecific where
  disableExtensions : Bool
  disablePlugins : Bool
  disableBackgroundTimer : Bool
  disableRendererBackgrounding : Bool
  disableBackgroundNetworking : Bool
deriving DecidableEq, Repr

/-- The defaults spread into `this.options.chromeSpecific` by
`ChromeSeleniumDriver.start` (all five flags `true`). -/
def defaultChromeSpecific : ChromeSpecific :=
  ⟨true, true, true, true, true⟩

/-- `{ ...defaults, ...this.options.chromeSpecific }`: when the record is
absent the defaults are used; when present (modelled as a complete record)
its fields win over every default. -/
def chromeSpecificMerge : Option ChromeSpecific → ChromeSpecific
  | none => defaultChromeSpecific
  | some c => c

/-- The browser-tuning record both `EdgeSeleniumDriver.start` and
`FirefoxSeleniumDriver.start` assign into `this.options.edgeSpecific` /
`this.options.firefoxSpecific`. -/
structure BrowserTuning where
  disableExtensions : Bool
  enableLogging : Bool
deriving DecidableEq, Repr

/-- The defaults spread into the Edge/Firefox tuning records
(`disableExtensions: true, enableLogging: false`). -/
def defaultBrowserTuning : BrowserTuning :=
  ⟨true, false⟩

/-- `{ ...defaults, ...this.options.edgeSpecific }` (and the Firefox
analogue): absent record gives the defaults; a present (complete) record's
fields win over every default. -/
def browserTuningMerge : Option BrowserTuning → BrowserTuning
  | none => defaultBrowserTuning
  | some c => c

/-- The options record built in the `BaseSeleniumDriver` constructor
(defaults overridden by the caller-supplied record).  `chromeSpecific`,
`edgeSpecific` and `firefoxSpecific` are not among the constructor
defaults; each only appears when the corresponding subclass `start()`
writes it. -/
structure SeleniumOptions where
  browser : String
  headless : Bool
  windowSize : WindowSize
  timeout : Nat
  implicitWait : Nat
  userAgent : Option String
  downloadsPath : String
  outputPath : String
  disableImages : Bool
  disableJavaScript : Bool
  acceptInsecureCerts : Bool
  chromeSpecific : Option ChromeSpecific
  edgeSpecific : Option BrowserTuning
  firefoxSpecific : Option BrowserTuning
deriving DecidableEq, Repr

/-- The constructor defaults of `BaseSeleniumDriver`. -/
def defaultSeleniumOptions : SeleniumOptions where
  browser := "chrome"
  headless := true
  windowSize := ⟨1920, 1080⟩
  timeout := 30000
  implicitWait := 10000
  userAgent := none
  downloadsPath := "./downloads"
  outputPath := "./output"
  disableImages := false
  disableJavaScript := false
  acceptInsecureCerts := true
  chromeSpecific := none
  edgeSpecific := none
  firefoxSpecific := none

/-- Simplified POSIX absolute-path test used by `path.isAbsolute`. -/
def isAbsolutePath (p : String) : Bool := jsStartsWith p ("/")

/-- Simplified `path.resolve(root, p)` for the cases exercised here: an
absolute `p` stands alone, a relative one is anchored under `root`. -/
def resolvePath (root p : String) : String :=
  if isAbsolutePath p then p else root ++ "/" ++ p

/-- The fixed project-root anchor the drivers compute from `__dirname`. -/
def projectRoot : String := "/project"

/-- Mutable session state of one `BaseSeleniumDriver` instance: the engine
handle (`driver` non-null), the `isStarted` flag, the last navigation URL,
the options record and the directory state derived in the constructor. -/
structure SeleniumState where
  isStarted : Bool
  hasDriver : Bool
  currentUrl : Option String
  options : SeleniumOptions
  outputDirectoryBasePath : String
  downloadDirectoryBasePath : String
  screenshotsDirectory : String
  videosDirectory : String
deriving DecidableEq, Repr

/-- The `BaseSeleniumDriver` constructor: no engine handle, not started, and
output/download base paths resolved against the project root. -/
def mkBaseSeleniumDriver (opts : SeleniumOptions) : SeleniumState where
  isStarted := false
  hasDriver := false
  currentUrl := none
  options := opts
  outputDirectoryBasePath := resolvePath projectRoot opts.outputPath
  downloadDirectoryBasePath := resolvePath projectRoot opts.downloadsPath
  screenshotsDirectory := "screenshots"
  videosDirectory := "videos"

/-- A fresh default-configured Selenium driver instance. -/
def freshSelenium : SeleniumState := mkBaseSeleniumDriver defaultSeleniumOptions

/-- The result of one driver method: the returned value or thrown error, the
session state after the call, and the trace of work performed. -/
structure SelOut (α : Type) where
  result : Except Err α
  state : SeleniumState
  effects : List Effect
deriving Repr, DecidableEq

/-- `_ensureStarted` throws when `!this.isStarted || !this.driver`. -/
def seleniumNotReady (s : SeleniumState) : Bool :=
  !s.isStarted || !s.hasDriver

/-! ## BaseSeleniumDriver operations

Each method takes the outcomes of its external engine calls as explicit
oracle arguments (`buildOk`, `located`, ...): the engine is a collaborator,
not part of the core. -/

/-- `BaseSeleniumDriver.start`: warn-and-return when already started;
otherwise configure the chosen browser (creating the download directory when
`downloadsPath` is truthy), build the engine session (`buildOk` is the
outcome of `builder.build()` plus `setTimeouts`), and only then set
`isStarted`.  An unsupported browser name or a failed build surfaces as
`Driver startup failed: ...`. -/
def seleniumStart (s : SeleniumState) (buildOk : Bool) : SelOut Unit :=
  if s.isStarted then
    ⟨.ok (), s, [.warn ("Driver already started")]⟩
  else
    let b := jsToLower s.options.browser
    if b = "chrome" || b = "firefox" || b = "edge" then
      let pre : List Effect :=
        if s.options.downloadsPath ≠ "" then [.mkdir s.downloadDirectoryBasePath] else []
      if buildOk then
        ⟨.ok (), { s with isStarted := true, hasDriver := true }, pre ++ [.engineLaunch]⟩
      else
        ⟨.error (.startupFailed ("Driver startup failed")), s, pre ++ [.engineLaunch]⟩
    else
      ⟨.error (.startupFailed ("Unsupported browser: " ++ s.options.browser)), s, []⟩

/-- `BaseSeleniumDriver.quit`: warn-and-return when not started (or the
handle is already gone); otherwise quit the engine and clear the session. -/
def seleniumQuit (s : SeleniumState) (quitOk : Bool) : SelOut Unit :=
  if !s.isStarted || !s.hasDriver then
    ⟨.ok (), s, [.warn ("Driver not started or already quit")]⟩
  else if quitOk then
    ⟨.ok (), { s with isStarted := false, hasDriver := false, currentUrl := none },
      [.engineQuit]⟩
  else
    ⟨.error (.failedOp ("Error quitting driver")), s, [.engineQuit]⟩

/-- `BaseSeleniumDriver.navigateTo`.  `nav = some (url, title)` is a
successful `driver.get` plus the current url/title; `none` is an engine
throw, surfaced as `Failed to navigate to <url>`. -/
def seleniumNavigateTo (s : SeleniumState) (url : String)
    (nav : Option (String × String)) : SelOut (String × String × Bool) :=
  if seleniumNotReady s then ⟨.error .notStarted, s, []⟩
  else
    match nav with
    | some (cur, title) =>
        ⟨.ok (cur, title, true), { s with currentUrl := some url }, [.engineGet url]⟩
    | none =>
        ⟨.error (.failedOp ("Failed to navigate to " ++ url)), s, [.engineGet url]⟩

/-- `BaseSeleniumDriver.findElement`: classify the selector with
`findElementLocator` and wait for it; a miss (timeout) is rethrown as
`Element not found: <selector>`. -/
def seleniumFindElement (s : SeleniumState) (selector : String)
    (located : Bool) : SelOut Unit :=
  if seleniumNotReady s then ⟨.error .notStarted, s, []⟩
  else if located then
    ⟨.ok (), s, [.engineLocate (findElementLocator selector)]⟩
  else
    ⟨.error (.notFound selector), s, [.engineLocate (findElementLocator selector)]⟩

/-- `BaseSeleniumDriver.findElements`: classify with `findElementsLocator`;
`found = some xs` is the engine's element list, `none` an engine throw —
which the catch block turns into the empty list instead of rethrowing. -/
def seleniumFindElements (s : SeleniumState) (selector : String)
    (found : Option (List Unit)) : SelOut (List Unit) :=
  if seleniumNotReady s then ⟨.error .notStarted, s, []⟩
  else
    match found with
    | some xs => ⟨.ok xs, s, [.engineLocate (findElementsLocator selector)]⟩
    | none => ⟨.ok [], s, [.engineLocate (findElementsLocator selector)]⟩

/-- `BaseSeleniumDriver.click`: find, wait until enabled, click; every
failure is wrapped as `Failed to click <selector>: ...`. -/
def seleniumClick (s : SeleniumState) (selector : String)
    (located enabled clickOk : Bool) : SelOut Unit :=
  if seleniumNotReady s then ⟨.error .notStarted, s, []⟩
  else
    let lo := [Effect.engineLocate (findElementLocator selector)]
    if !located then
      ⟨.error (.failedOp ("Failed to click " ++ selector)), s, lo⟩
    else if !enabled then
      ⟨.error (.failedOp ("Failed to click " ++ selector)), s, lo ++ [.engineWaitEnabled]⟩
    else if clickOk then
      ⟨.ok (), s, lo ++ [.engineWaitEnabled, .engineClick]⟩
    else
      ⟨.error (.failedOp ("Failed to click " ++ selector)), s,
        lo ++ [.engineWaitEnabled, .engineClick]⟩

/-- `BaseSeleniumDriver.sendKeys`: find, wait until enabled, type; failures
wrapped as `Failed to send keys to <selector>: ...`. -/
def seleniumSendKeys (s : SeleniumState) (selector text : String)
    (located enabled typeOk : Bool) : SelOut Unit :=
  if seleniumNotReady s then ⟨.error .notStarted, s, []⟩
  else
    let lo := [Effect.engineLocate (findElementLocator selector)]
    if !located then
      ⟨.error (.failedOp ("Failed to send keys to " ++ selector)), s, lo⟩
    else if !enabled then
      ⟨.error (.failedOp ("Failed to send keys to " ++ selector)), s,
        lo ++ [.engineWaitEnabled]⟩
    else if typeOk then
      ⟨.ok (), s, lo ++ [.engineWaitEnabled, .engineSendKeys text]⟩
    else
      ⟨.error (.failedOp ("Failed to send keys to " ++ selector)), s,
        lo ++ [.engineWaitEnabled, .engineSendKeys text]⟩

/-- `BaseSeleniumDriver.clearText`: find then `element.clear()`. -/
def seleniumClearText (s : SeleniumState) (selector : String)
    (located clearOk : Bool) : SelOut Unit :=
  if seleniumNotReady s then ⟨.error .notStarted, s, []⟩
  else
    let lo := [Effect.engineLocate (findElementLocator selector)]
    if !located then
      ⟨.error (.failedOp ("Failed to clear text from " ++ selector)), s, lo⟩
    else if clearOk then
      ⟨.ok (), s, lo ++ [.engineClear]⟩
    else
      ⟨.error (.failedOp ("Failed to clear text from " ++ selector)), s,
        lo ++ [.engineClear]⟩

/-- `BaseSeleniumDriver.getText`: find then `element.getText()` — a single
attempt, no retry. -/
def seleniumGetText (s : SeleniumState) (selector : String)
    (located : Bool) (text : Option String) : SelOut String :=
  if seleniumNotReady s then ⟨.error .notStarted, s, []⟩
  else
    let lo := [Effect.engineLocate (findElementLocator selector)]
    if !located then
      ⟨.error (.failedOp ("Failed to get text from " ++ selector)), s, lo⟩
    else
      match text with
      | some t => ⟨.ok t, s, lo ++ [.engineGetText]⟩
      | none =>
          ⟨.error (.failedOp ("Failed to get text from " ++ selector)), s,
            lo ++ [.engineGetText]⟩

/-- `BaseSeleniumDriver.executeScript`: run the script in page context;
engine errors are wrapped as `Failed to execute script: ...`. -/
def seleniumExecuteScript (s : SeleniumState) (script : String)
    (outcome : Option Unit) : SelOut Unit :=
  if seleniumNotReady s then ⟨.error .notStarted, s, []⟩
  else
    match outcome with
    | some _ => ⟨.ok (), s, [.engineScript script]⟩
    | none =>
        ⟨.error (.failedOp ("Failed to execute script")), s, [.engineScript script]⟩

/-! ## Filename generation (`_generateFilename`, identical in both drivers) -/

/-- The character substitution of `.replace(/[:.]/g, '-')`. -/
def stampChar (c : Char) : Char :=
  if c = ':' || c = '.' then '-' else c

/-- `.replace(/T/, '_')` — a non-global regex, so only the *first* `'T'` is
replaced. -/
def replaceFirstT : List Char → List Char
  | [] => []
  | c :: cs => if c = 'T' then '_' :: cs else c :: replaceFirstT cs

/-- The timestamp pipeline of `_generateFilename` applied to
`new Date().toISOString()` (here the `iso` argument):
replace `[:.]` with `-`, replace the first `T` with `_`, then
`slice(0, -5)` (drop the trailing `-mmmZ`, i.e. truncate to seconds). -/
def filenameStamp (iso : String) : String :=
  let rep := replaceFirstT (iso.data.map stampChar)
  String.mk (rep.take (rep.length - 5))

/-- Index of the last `'.'` in a (slash-free) name, or `none`. -/
def lastDotIdx (l : List Char) : Option Nat :=
  match l.reverse.findIdx? (fun c => c = '.') with
  | none => none
  | some j => some (l.length - 1 - j)

/-- Split a slash-free name into (base, extension) following Node's
`path.extname` / `path.basename(name, ext)`: the extension starts at the
last dot unless that dot is the leading character (hidden files such as
`.bashrc` have no extension) or the name is exactly `".."`. -/
def extSplit (l : List Char) : List Char × List Char :=
  if l = ['.', '.'] then (l, [])
  else
    match lastDotIdx l with
    | none => (l, [])
    | some 0 => (l, [])
    | some i => (l.take i, l.drop i)

/-- Shallow embedding of `_generateFilename(baseName, includeTimestamp)`
(identical code in `BaseSeleniumDriver` and `PlaywrightDriver`), with the
wall clock made explicit as the `iso` string the code reads from
`new Date().toISOString()`.  With the timestamp enabled the name becomes
`<base>_<stamp><ext>`; disabled, the name is returned unchanged. -/
def generateFilename (iso : String) (baseName : String)
    (includeTimestamp : Bool) : String :=
  if includeTimestamp then
    let (base, ext) := extSplit baseName.data
    String.mk base ++ "_" ++ filenameStamp iso ++ String.mk ext
  else
    baseName

/-- `path.join(dir, name)` for the simple shapes used here. -/
def joinPath (dir name : String) : String := dir ++ "/" ++ name

/-- The screenshots path computed by `createScreenshotsDirectory`: the base
directory resolved against the project root, then the screenshots
subdirectory resolved under it. -/
def screenshotsPathOf (baseDirectory screenshotsDirectory : String) : String :=
  resolvePath (resolvePath projectRoot baseDirectory) screenshotsDirectory

/-- `BaseSeleniumDriver.takeScreenshot`: requires a started session, captures
via the engine (`shotOk`), and when a filename is supplied resolves the
destination directory (creating it), timestamps the name via
`generateFilename`, appends `.png` when the name has no extension, and
writes the file, returning `some path`; with no filename it returns the raw
image (`none`). -/
def seleniumTakeScreenshot (s : SeleniumState) (filename : Option String)
    (includeTimestamp : Bool) (baseDirectory screenshotsDirectory : Option String)
    (iso : String) (shotOk : Bool) : SelOut (Option String) :=
  if seleniumNotReady s then ⟨.error .notStarted, s, []⟩
  else if !shotOk then
    ⟨.error (.failedOp ("Failed to take screenshot")), s, [.engineScreenshot]⟩
  else
    match filename with
    | none => ⟨.ok none, s, [.engineScreenshot]⟩
    | some name =>
        let actualBase := baseDirectory.getD s.outputDirectoryBasePath
        let actualSub := screenshotsDirectory.getD s.screenshotsDirectory
        let dir := screenshotsPathOf actualBase actualSub
        let finalFilename := generateFilename iso name includeTimestamp
        let filepath := joinPath dir finalFilename
        let finalPath :=
          if (extSplit filepath.data).2 = [] then filepath ++ ".png" else filepath
        ⟨.ok (some finalPath), s, [.engineScreenshot, .mkdir dir, .writeFile finalPath]⟩

/-- The videos path computed by `createVideosDirectory`. -/
def videosPathOf (baseDirectory videosDirectory : String) : String :=
  resolvePath (resolvePath projectRoot baseDirectory) videosDirectory

/-- `BaseSeleniumDriver.startVideoRecording`: the Selenium video stub.  It
performs *no* started-session check; it resolves and creates the videos
directory and then throws the `Video recording not yet implemented` error
unconditionally. -/
def seleniumStartVideoRecording (s : SeleniumState)
    (baseDirectory videosDirectory : Option String) : SelOut Unit :=
  let actualBase := baseDirectory.getD s.outputDirectoryBasePath
  let actualVid := videosDirectory.getD s.videosDirectory
  ⟨.error (.notImplemented ("Video recording not yet implemented")), s,
    [.mkdir (videosPathOf actualBase actualVid)]⟩

/-- `BaseSeleniumDriver.stopVideoRecording`: throws the not-implemented
error immediately, with no started-session check and no work. -/
def seleniumStopVideoRecording (s : SeleniumState) : SelOut Unit :=
  ⟨.error (.notImplemented ("Video recording not yet implemented")), s, []⟩

/-! ## ChromeSeleniumDriver -/

/-- `ChromeSeleniumDriver` constructor: `super({ browser: 'chrome',
...options })` — the caller's record is spread after the `'chrome'` default. -/
def mkChromeSeleniumDriver (opts : SeleniumOptions) : SeleniumState :=
  mkBaseSeleniumDriver opts

/-- `ChromeSeleniumDriver.start`: first *assigns*
`this.options.chromeSpecific = { ...defaults, ...this.options.chromeSpecific }`,
then runs the base `start()`, then (when started) injects the
animation-disabling style and, when not headless, sets the window rect. -/
def chromeStart (s : SeleniumState) (buildOk : Bool) : SelOut Unit :=
  let s1 : SeleniumState :=
    { s with options :=
        { s.options with chromeSpecific := some (chromeSpecificMerge s.options.chromeSpecific) } }
  let r := seleniumStart s1 buildOk
  if r.state.isStarted then
    { r with effects := r.effects ++
        [.engineScript ("disable animations")] ++
        (if !r.state.options.headless then [.setWindowRect] else []) }
  else
    r

/-! ## EdgeSeleniumDriver / FirefoxSeleniumDriver -/

/-- `EdgeSeleniumDriver` constructor: `super({ browser: 'edge',
...options })`. -/
def mkEdgeSeleniumDriver (opts : SeleniumOptions) : SeleniumState :=
  mkBaseSeleniumDriver opts

/-- `FirefoxSeleniumDriver` constructor: `super({ browser: 'firefox',
...options })`. -/
def mkFirefoxSeleniumDriver (opts : SeleniumOptions) : SeleniumState :=
  mkBaseSeleniumDriver opts

/-- `EdgeSeleniumDriver.start`: first *assigns*
`this.options.edgeSpecific = { ...defaults, ...this.options.edgeSpecific }`,
then runs the base `start()`, then (when started) injects the
animation-disabling style and, when not headless, sets the window rect. -/
def edgeStart (s : SeleniumState) (buildOk : Bool) : SelOut Unit :=
  let s1 : SeleniumState :=
    { s with options :=
        { s.options with edgeSpecific := some (browserTuningMerge s.options.edgeSpecific) } }
  let r := seleniumStart s1 buildOk
  if r.state.isStarted then
    { r with effects := r.effects ++
        [.engineScript ("disable animations")] ++
        (if !r.state.options.headless then [.setWindowRect] else []) }
  else
    r

/-- `FirefoxSeleniumDriver.start`: first *assigns*
`this.options.firefoxSpecific = { ...defaults, ...this.options.firefoxSpecific }`,
then runs the base `start()`, then (when started) injects the
animation-disabling style (no window-rect step in the Firefox subclass). -/
def firefoxStart (s : SeleniumState) (buildOk : Bool) : SelOut Unit :=
  let s1 : SeleniumState :=
    { s with options :=
        { s.options with firefoxSpecific := some (browserTuningMerge s.options.firefoxSpecific) } }
  let r := seleniumStart s1 buildOk
  if r.state.isStarted then
    { r with effects := r.effects ++ [.engineScript ("disable animations")] }
  else
    r

/-! ## PlaywrightDriver -/

/-- The options record built in the `PlaywrightDriver` constructor. -/
structure PlaywrightOptions where
  browser : String
  headless : Bool
  windowSize : WindowSize
  timeout : Nat
  navigationTimeout : Nat
  userAgent : Option String
  downloadsPath : String
  outputPath : String
  disableImages : Bool
  disableJavaScript : Bool
  acceptInsecureCerts : Bool
  recordVideo : Bool
  slowMo : Nat
deriving DecidableEq, Repr

/-- The constructor defaults of `PlaywrightDriver`. -/
def defaultPlaywrightOptions : PlaywrightOptions where
  browser := "chromium"
  headless := true
  windowSize := ⟨1920, 1080⟩
  timeout := 30000
  navigationTimeout := 30000
  userAgent := none
  downloadsPath := "./downloads"
  outputPath := "./output"
  disableImages := false
  disableJavaScript := false
  acceptInsecureCerts := true
  recordVideo := false
  slowMo := 0

/-- Mutable session state of one `PlaywrightDriver` instance: browser,
context and page handles, the `isStarted` flag, the last URL, options and
derived directory state. -/
structure PWState where
  isStarted : Bool
  hasBrowser : Bool
  hasContext : Bool
  hasPage : Bool
  currentUrl : Option String
  options : PlaywrightOptions
  outputDirectoryBasePath : String
  downloadDirectoryBasePath : String
  screenshotsDirectory : String
  videosDirectory : String
deriving DecidableEq, Repr

/-- The `PlaywrightDriver` constructor. -/
def mkPlaywrightDriver (opts : PlaywrightOptions) : PWState where
  isStarted := false
  hasBrowser := false
  hasContext := false
  hasPage := false
  currentUrl := none
  options := opts
  outputDirectoryBasePath := resolvePath projectRoot opts.outputPath
  downloadDirectoryBasePath := resolvePath projectRoot opts.downloadsPath
  screenshotsDirectory := "screenshots"
  videosDirectory := "videos"

/-- A fresh default-configured Playwright driver instance. -/
def freshPlaywright : PWState := mkPlaywrightDriver defaultPlaywrightOptions

/-- Result of one `PlaywrightDriver` method. -/
structure PWOut (α : Type) where
  result : Except Err α
  state : PWState
  effects : List Effect
deriving Repr, DecidableEq

/-- `PlaywrightDriver._ensureStarted` throws when
`!this.isStarted || !this.page`. -/
def pwNotReady (s : PWState) : Bool :=
  !s.isStarted || !s.hasPage

/-! ### Environment-aware browser-binary acquisition (in `start()`) -/

/-- The environment variables `PlaywrightDriver.start` reads.  `none` is an
unset variable; JavaScript truthiness also treats the empty string as unset. -/
structure Env where
  awsLambdaFunctionName : Option String
  awsExecutionEnv : Option String
  playwrightChromiumExecutablePath : Option String
deriving DecidableEq, Repr

/-- JavaScript truthiness of an environment variable. -/
def truthy : Option String → Bool
  | none => false
  | some s => !(jsIsEmpty s)

/-- `const isLambda = process.env.AWS_LAMBDA_FUNCTION_NAME ||
process.env.AWS_EXECUTION_ENV;` — the serverless sandbox marker. -/
def isLambdaEnv (e : Env) : Bool :=
  truthy e.awsLambdaFunctionName || truthy e.awsExecutionEnv

/-- Which browser binary `start()` decides to launch. -/
inductive BinaryChoice where
  | serverless (path : String)
  | custom (path : String)
  | engineDefault
deriving DecidableEq, Repr

/-- The exact message of the fail-fast throw inside the Lambda branch. -/
def serverlessUnavailableMsg : String :=
  "Lambda environment detected but serverless Chromium not available. Install @sparticuz/chromium package."

/-- The binary-acquisition phase of `PlaywrightDriver.start` (the
`isLambda` branches): in a Lambda environment require the serverless
Chromium (`sparticuzPath` is its executable path when the package resolves,
`none` when `require`/`executablePath()` fails) and *throw* when it is
missing; otherwise prefer `PLAYWRIGHT_CHROMIUM_EXECUTABLE_PATH` for a
chromium/chrome browser, else the engine's default installation.  The
`browser` argument is `this.options.browser`, compared *without*
lower-casing, as in the source. -/
def acquireBrowserBinary (e : Env) (sparticuzPath : Option String)
    (browser : String) : Except String BinaryChoice :=
  if isLambdaEnv e then
    match sparticuzPath with
    | some p => .ok (.serverless p)
    | none => .error serverlessUnavailableMsg
  else
    match e.playwrightChromiumExecutablePath with
    | some p =>
        if !(jsIsEmpty p) && (browser = "chromium" || browser = "chrome") then
          .ok (.custom p)
        else .ok .engineDefault
    | none => .ok .engineDefault

/-- A launch effect tagged with the binary that was launched. -/
def launchEffect (c : BinaryChoice) : Effect :=
  match c with
  | .serverless p => .engineScript ("launch serverless " ++ p)
  | .custom p => .engineScript ("launch custom " ++ p)
  | .engineDefault => .engineScript ("launch default")

/-- `PlaywrightDriver.start`: warn-and-return when already started; resolve
the engine for the (lower-cased) browser name; run the acquisition phase —
whose throw aborts the start with `Driver startup failed: ...` *before any
launch* — then launch, create the context (creating the videos directory
when `recordVideo` is set and the download directory when `downloadsPath`
is truthy) and the page, and set `isStarted`. -/
def pwStart (s : PWState) (e : Env) (sparticuzPath : Option String)
    (launchOk : Bool) : PWOut Unit :=
  if s.isStarted then
    ⟨.ok (), s, [.warn ("Driver already started")]⟩
  else
    let b := jsToLower s.options.browser
    if b = "chromium" || b = "chrome" || b = "firefox" || b = "webkit" || b = "safari" then
      match acquireBrowserBinary e sparticuzPath s.options.browser with
      | .error msg => ⟨.error (.startupFailed ("Driver startup failed: " ++ msg)), s, []⟩
      | .ok choice =>
          if launchOk then
            let mkVideos : List Effect :=
              if s.options.recordVideo then
                [.mkdir (videosPathOf s.outputDirectoryBasePath s.videosDirectory)]
              else []
            let mkDownloads : List Effect :=
              if s.options.downloadsPath ≠ "" then [.mkdir s.downloadDirectoryBasePath]
              else []
            ⟨.ok (),
              { s with isStarted := true, hasBrowser := true, hasContext := true,
                       hasPage := true },
              [launchEffect choice] ++ mkVideos ++ mkDownloads⟩
          else
            ⟨.error (.startupFailed ("Driver startup failed")), s, [launchEffect choice]⟩
    else
      ⟨.error (.startupFailed ("Unsupported browser: " ++ s.options.browser)), s, []⟩

/-- `PlaywrightDriver.quit`: warn-and-return when not started; otherwise
close page, then context, then browser, and clear the session. -/
def pwQuit (s : PWState) (quitOk : Bool) : PWOut Unit :=
  if !s.isStarted then
    ⟨.ok (), s, [.warn ("Driver not started or already quit")]⟩
  else if quitOk then
    ⟨.ok (), { s with isStarted := false, hasBrowser := false, hasContext := false,
                      hasPage := false, currentUrl := none },
      [.closePage, .closeContext, .closeBrowser]⟩
  else
    ⟨.error (.failedOp ("Error quitting driver")), s, [.closePage]⟩

/-- `PlaywrightDriver.navigateTo` (`page.goto`, `waitUntil:
domcontentloaded`). -/
def pwNavigateTo (s : PWState) (url : String)
    (nav : Option (String × String × Bool)) : PWOut (String × String × Bool) :=
  if pwNotReady s then ⟨.error .notStarted, s, []⟩
  else
    match nav with
    | some (cur, title, ok) =>
        ⟨.ok (cur, title, ok), { s with currentUrl := some url }, [.engineGet url]⟩
    | none =>
        ⟨.error (.failedOp ("Failed to navigate to " ++ url)), s, [.engineGet url]⟩

/-- `PlaywrightDriver.findElement` (`page.waitForSelector`, state
`attached`); a miss is rethrown as `Element not found: <selector>`. -/
def pwFindElement (s : PWState) (selector : String) (located : Bool) : PWOut Unit :=
  if pwNotReady s then ⟨.error .notStarted, s, []⟩
  else if located then ⟨.ok (), s, [.pageLocate selector]⟩
  else ⟨.error (.notFound selector), s, [.pageLocate selector]⟩

/-- `PlaywrightDriver.findElements` (`page.locator(selector).all()`); the
catch block returns the empty list on any engine throw. -/
def pwFindElements (s : PWState) (selector : String)
    (found : Option (List Unit)) : PWOut (List Unit) :=
  if pwNotReady s then ⟨.error .notStarted, s, []⟩
  else
    match found with
    | some xs => ⟨.ok xs, s, [.pageLocate selector]⟩
    | none => ⟨.ok [], s, [.pageLocate selector]⟩

/-- `PlaywrightDriver.click` (`page.click`, auto-waiting built in). -/
def pwClick (s : PWState) (selector : String) (clickOk : Bool) : PWOut Unit :=
  if pwNotReady s then ⟨.error .notStarted, s, []⟩
  else if clickOk then ⟨.ok (), s, [.engineClick]⟩
  else ⟨.error (.failedOp ("Failed to click " ++ selector)), s, [.engineClick]⟩

/-- `PlaywrightDriver.sendKeys` (`page.fill`). -/
def pwSendKeys (s : PWState) (selector text : String) (fillOk : Bool) : PWOut Unit :=
  if pwNotReady s then ⟨.error .notStarted, s, []⟩
  else if fillOk then ⟨.ok (), s, [.engineSendKeys text]⟩
  else ⟨.error (.failedOp ("Failed to send keys to " ++ selector)), s,
    [.engineSendKeys text]⟩

/-- `PlaywrightDriver.clearText` (`page.fill(selector, '')`). -/
def pwClearText (s : PWState) (selector : String) (fillOk : Bool) : PWOut Unit :=
  if pwNotReady s then ⟨.error .notStarted, s, []⟩
  else if fillOk then ⟨.ok (), s, [.engineClear]⟩
  else ⟨.error (.failedOp ("Failed to clear text from " ++ selector)), s, [.engineClear]⟩

/-- `PlaywrightDriver.getText` (`page.textContent`). -/
def pwGetText (s : PWState) (selector : String) (text : Option (Option String)) :
    PWOut String :=
  if pwNotReady s then ⟨.error .notStarted, s, []⟩
  else
    match text with
    | some t => ⟨.ok (t.getD ""), s, [.engineGetText]⟩
    | none =>
        ⟨.error (.failedOp ("Failed to get text from " ++ selector)), s,
          [.engineGetText]⟩

/-- `PlaywrightDriver.executeScript` (`page.evaluate`). -/
def pwExecuteScript (s : PWState) (script : String) (outcome : Option Unit) :
    PWOut Unit :=
  if pwNotReady s then ⟨.error .notStarted, s, []⟩
  else
    match outcome with
    | some _ => ⟨.ok (), s, [.engineScript script]⟩
    | none =>
        ⟨.error (.failedOp ("Failed to execute script")), s, [.engineScript script]⟩

/-- `PlaywrightDriver.takeScreenshot`: same directory/filename pipeline as
the Selenium driver, with the Playwright `page.screenshot` writing the file
itself. -/
def pwTakeScreenshot (s : PWState) (filename : Option String)
    (includeTimestamp : Bool) (baseDirectory screenshotsDirectory : Option String)
    (iso : String) (shotOk : Bool) : PWOut (Option String) :=
  if pwNotReady s then ⟨.error .notStarted, s, []⟩
  else if !shotOk then
    ⟨.error (.failedOp ("Failed to take screenshot")), s, [.engineScreenshot]⟩
  else
    match filename with
    | none => ⟨.ok none, s, [.engineScreenshot]⟩
    | some name =>
        let actualBase := baseDirectory.getD s.outputDirectoryBasePath
        let actualSub := screenshotsDirectory.getD s.screenshotsDirectory
        let dir := screenshotsPathOf actualBase actualSub
        let finalFilename := generateFilename iso name includeTimestamp
        let filepath := joinPath dir finalFilename
        let finalPath :=
          if (extSplit filepath.data).2 = [] then filepath ++ ".png" else filepath
        ⟨.ok (some finalPath), s, [.mkdir dir, .engineScreenshot, .writeFile finalPath]⟩

/-- `PlaywrightDriver.startVideoRecording`: *does* check the started
session first, then fails unless `recordVideo` was enabled at start. -/
def pwStartVideoRecording (s : PWState) : PWOut Unit :=
  if pwNotReady s then ⟨.error .notStarted, s, []⟩
  else if !s.options.recordVideo then
    ⟨.error (.failedOp ("Video recording not enabled")), s,
      [.warn ("Video recording should be enabled at browser start")]⟩
  else
    ⟨.ok (), s, [.warn ("Video recording should be enabled at browser start")]⟩

/-- `PlaywrightDriver.stopVideoRecording`: checks the started session, then
returns the recorded video's path (an engine lookup that can fail). -/
def pwStopVideoRecording (s : PWState) (videoPath : Option String) : PWOut String :=
  if pwNotReady s then ⟨.error .notStarted, s, []⟩
  else if !s.options.recordVideo then
    ⟨.error (.failedOp ("Video recording not enabled")), s, []⟩
  else
    match videoPath with
    | some p => ⟨.ok p, s, [.engineScript ("video path")]⟩
    | none =>
        ⟨.error (.failedOp ("Failed to stop video recording")), s,
          [.engineScript ("video path")]⟩

/-! ## PlaywrightUtils.getSelectorInfo (Driver B's resolver) -/

/-- The locator-strategy tag computed by `PlaywrightUtils.getSelectorInfo`.
Driver B mostly delegates to Playwright's native selector engine; only the
`data-testid=` rule rewrites the selector (to attribute-equality CSS). -/
inductive PWStrategy where
  | xpath
  | text
  | partialText
  | role
  | label
  | placeholder
  | testid
  | css
deriving DecidableEq, Repr

/-- Shallow embedding of `PlaywrightUtils.getSelectorInfo`: the strategy tag
and the (possibly rewritten) selector payload, in the source's branch
order. -/
def getSelectorInfo (selector : String) : PWStrategy × String :=
  if jsStartsWith selector ("//") || jsStartsWith selector ("(//") then
    (.xpath, selector)
  else if jsStartsWith selector ("text=") then
    (.text, selector)
  else if jsIncludes selector ("text=") then
    (.partialText, selector)
  else if jsStartsWith selector ("role=") then
    (.role, selector)
  else if jsStartsWith selector ("label=") then
    (.label, selector)
  else if jsStartsWith selector ("placeholder=") then
    (.placeholder, selector)
  else if jsStartsWith selector ("data-testid=") then
    (.testid, "[data-testid=\"" ++ jsDrop selector 13 ++ "\"]")
  else
    (.css, selector)

/-! ## SeleniumUtils.safeClick (retrying safe-interaction primitive) -/

/-- Outcome of one `safeClick` attempt, as decided by the page: the
5s `clickable` wait inside `smartWaitForElement` times out
(`notLocated`), or the element is located and scrolled but `element.click()`
throws (`locatedClickFails`), or the click lands (`clickOk`). -/
inductive AttemptOut where
  | notLocated
  | locatedClickFails
  | clickOk
deriving DecidableEq, Repr

/-- The work one `safeClick` attempt performs: re-locate via
`smartWaitForElement` (using `getSmartSelector`); when the element is
located, scroll it to the viewport center, wait 500ms for the scroll to
settle, then issue the native click. -/
def attemptEffects (oracle : Nat → AttemptOut) (selector : String) (n : Nat) :
    List Effect :=
  [.engineLocate (getSmartSelector selector)] ++
    (match oracle n with
     | .notLocated => []
     | .locatedClickFails => [.scrollIntoView, .sleep 500, .engineClick]
     | .clickOk => [.scrollIntoView, .sleep 500, .engineClick])

/-- The exhaustion message `throw new Error('Failed to click <selector>
after <maxRetries> attempts')`. -/
def safeClickFailMsg (selector : String) (maxRetries : Nat) : String :=
  "Failed to click " ++ selector ++ " after " ++ toString maxRetries ++ " attempts"

/-- The retry loop of `SeleniumUtils.safeClick`
(`for (let attempt = 1; attempt <= maxRetries; attempt++)`), written with the
number of remaining iterations explicit (`remaining = maxRetries - attempt + 1`).
On a failed attempt the code sleeps `retryDelay` and retries while
`attempt < maxRetries`; on the last attempt it throws the exhaustion
message.  An exhausted-by-zero loop falls through to `return false`. -/
def safeClickLoop (oracle : Nat → AttemptOut) (selector : String)
    (maxRetries retryDelay : Nat) : Nat → Nat → Except String Bool × List Effect
  | _, 0 => (.ok false, [])
  | attempt, remaining + 1 =>
    let effs := attemptEffects oracle selector attempt
    match oracle attempt with
    | .clickOk => (.ok true, effs)
    | _ =>
      if remaining = 0 then
        (.error (safeClickFailMsg selector maxRetries), effs)
      else
        let rest := safeClickLoop oracle selector maxRetries retryDelay (attempt + 1) remaining
        (rest.1, effs ++ Effect.sleep retryDelay :: rest.2)

/-- Shallow embedding of `SeleniumUtils.safeClick(driver, selector,
maxRetries = 3, retryDelay = 1000)`, with the page's behaviour given by the
per-attempt `oracle`. -/
def safeClick (oracle : Nat → AttemptOut) (selector : String)
    (maxRetries retryDelay : Nat) : Except String Bool × List Effect :=
  safeClickLoop oracle selector maxRetries retryDelay 1 maxRetries

/-- The signature default `maxRetries = 3` of `safeClick`. -/
def safeClickDefaultRetries : Nat := 3

/-- The signature default `retryDelay = 1000` of `safeClick`. -/
def safeClickDefaultDelay : Nat := 1000

/-! ## Helper lemmas -/

theorem jsStartsWith_append (p v : String) : jsStartsWith (p ++ v) p = true := by
  simp [jsStartsWith, String.data_append, List.isPrefixOf_iff_prefix]

theorem jsContainsChar_append (a b : String) (c : Char) :
    jsContainsChar (a ++ b) c = (jsContainsChar a c || jsContainsChar b c) := by
  simp [jsContainsChar, String.data_append, List.contains]

theorem jsDrop_append (p v : String) : jsDrop (p ++ v) p.data.length = v := by
  simp [jsDrop, String.data_append]

/-- A selector that starts with a letter matches none of the symbol-headed
rules (`//`, `(//`, `#`, `.`). -/
theorem jsStartsWith_false_of_head (s pre : String) (c : Char) (cs : List Char)
    (hd : s.data = c :: cs) (hpre : pre.data.headD c ≠ c) :
    jsStartsWith s pre = false := by
  unfold jsStartsWith
  rw [hd]
  cases hp : pre.data with
  | nil => rw [hp] at hpre; simp at hpre
  | cons p ps =>
    rw [hp] at hpre
    simp only [List.isPrefixOf, List.headD] at hpre ⊢
    simp [hpre]

/-! ## C1 — selector-resolution order -/

/-- C1 (counterexample): the claim says the `text:` rule is applied before
the bare `attr=value` rule, so a string matching both — such as
`"text:a=b"` — should resolve to the contains-text XPath.  In the code the
`attr=value` check comes first: `"text:a=b"` satisfies both guards yet
resolves to the attribute-equality CSS descriptor, not to the text XPath. -/
theorem getSmartSelector_text_attr_overlap_counterexample :
    jsStartsWith ("text:a=b") ("text:") = true ∧
    attrValueGuard ("text:a=b") = true ∧
    getSmartSelector ("text:a=b") ≠ By.xpath (containsTextXPath ("a=b")) ∧
    getSmartSelector ("text:a=b") = By.css ("[text:a=\"b\"]") := by
  refine ⟨by decide, by decide, by decide, by decide⟩

/-- C1 (amended): the resolver applies its rules first-match-wins in the
order XPath, `#` id, `.` class, bare `attr=value` (no `[`, no space),
`text:`, `partial-text:`, default CSS — i.e. with the `attr=value` rule
*before* the text rules; consequently, on every string matching both the
text rule and the `attr=value` rule, the `attr=value` rule (listed earlier
in the code) wins. -/
theorem getSmartSelector_first_match_code_order :
    (∀ s, getSmartSelector s = firstMatch codeOrderRules s) ∧
    (∀ s, jsStartsWith s ("text:") = true → attrValueGuard s = true →
      getSmartSelector s = By.css (attrEqualityCss s)) := by
  constructor
  · intro s
    rfl
  · intro s hpre hattr
    have hp : ("text:").data <+: s.data := by
      rw [← List.isPrefixOf_iff_prefix]
      exact hpre
    obtain ⟨t, ht⟩ := hp
    have hd : s.data = 't' :: 'e' :: 'x' :: 't' :: ':' :: t := by rw [← ht]; rfl
    have h1 : jsStartsWith s ("//") = false :=
      jsStartsWith_false_of_head s ("//") 't' _ hd (by decide)
    have h2 : jsStartsWith s ("(//") = false :=
      jsStartsWith_false_of_head s ("(//") 't' _ hd (by decide)
    have h3 : jsStartsWith s ("#") = false :=
      jsStartsWith_false_of_head s ("#") 't' _ hd (by decide)
    have h4 : jsStartsWith s (".") = false :=
      jsStartsWith_false_of_head s (".") 't' _ hd (by decide)
    unfold getSmartSelector
    rw [h1, h2, h3, h4, hattr]
    simp

/-- Witness for the amended C1 theorem at the overlap string `"text:a=b"`. -/
theorem getSmartSelector_first_match_code_order_witness :
    getSmartSelector ("text:a=b") = By.css (attrEqualityCss ("text:a=b")) :=
  getSmartSelector_first_match_code_order.2 ("text:a=b") (by decide) (by decide)

/-! ## C8 — `text:` vs `partial-text:` -/

/-- C8 (counterexample): the claim says `text:<v>` and `partial-text:<v>`
resolve identically for *every* value `v`.  For `v = "x=y"` both composed
strings match the bare `attr=value` rule, which the code checks first, and
they then resolve to *different* attribute-equality CSS descriptors. -/
theorem text_vs_partial_text_counterexample :
    getSmartSelector ("text:x=y") = By.css ("[text:x=\"y\"]") ∧
    getSmartSelector ("partial-text:x=y") = By.css ("[partial-text:x=\"y\"]") ∧
    getSmartSelector ("text:x=y") ≠ getSmartSelector ("partial-text:x=y") := by
  refine ⟨by decide, by decide, by decide⟩

/-- C8 (amended): for every value `v` that does not itself match the bare
`attr=value` pattern (i.e. `v` has no `=`, or contains `[` or a space),
`text:<v>` and `partial-text:<v>` resolve to the same contains-based XPath
`//*[contains(text(), "<v>")]` — the deliberately loose match.  (Values
matching the `attr=value` pattern are instead captured by the earlier
`attr=value` rule and resolve to different CSS descriptors.) -/
theorem text_and_partial_text_agree (v : String)
    (hv : jsContainsChar v '=' = false ∨ jsContainsChar v '[' = true ∨
      jsContainsChar v ' ' = true) :
    getSmartSelector ("text:" ++ v) = By.xpath (containsTextXPath v) ∧
    getSmartSelector ("partial-text:" ++ v) = By.xpath (containsTextXPath v) := by
  have hguard : ∀ p : String, jsContainsChar p '=' = false →
      jsContainsChar p '[' = false → jsContainsChar p ' ' = false →
      attrValueGuard (p ++ v) = false := by
    intro p h1 h2 h3
    unfold attrValueGuard
    rw [jsContainsChar_append, jsContainsChar_append, jsContainsChar_append,
      h1, h2, h3]
    rcases hv with h | h | h <;> simp [h]
  constructor
  · have hd : ("text:" ++ v).data = 't' :: 'e' :: 'x' :: 't' :: ':' :: v.data := by
      rw [String.data_append]; rfl
    have h1 := jsStartsWith_false_of_head _ ("//") 't' _ hd (by decide)
    have h2 := jsStartsWith_false_of_head _ ("(//") 't' _ hd (by decide)
    have h3 := jsStartsWith_false_of_head _ ("#") 't' _ hd (by decide)
    have h4 := jsStartsWith_false_of_head _ (".") 't' _ hd (by decide)
    have h5 := hguard ("text:") (by decide) (by decide) (by decide)
    have h6 := jsStartsWith_append ("text:") v
    unfold getSmartSelector
    rw [h1, h2, h3, h4, h5, h6]
    simp only [Bool.or_self, Bool.false_eq_true, if_false, if_true]
    have : jsDrop ("text:" ++ v) 5 = v := jsDrop_append ("text:") v
    rw [this]
  · have hd : ("partial-text:" ++ v).data
        = 'p' :: 'a' :: 'r' :: 't' :: 'i' :: 'a' :: 'l' :: '-' :: 't' :: 'e' :: 'x' :: 't' :: ':' :: v.data := by
      rw [String.data_append]; rfl
    have h1 := jsStartsWith_false_of_head _ ("//") 'p' _ hd (by decide)
    have h2 := jsStartsWith_false_of_head _ ("(//") 'p' _ hd (by decide)
    have h3 := jsStartsWith_false_of_head _ ("#") 'p' _ hd (by decide)
    have h4 := jsStartsWith_false_of_head _ (".") 'p' _ hd (by decide)
    have h5 := hguard ("partial-text:") (by decide) (by decide) (by decide)
    have h7 := jsStartsWith_false_of_head _ ("text:") 'p' _ hd (by decide)
    have h6 := jsStartsWith_append ("partial-text:") v
    unfold getSmartSelector
    rw [h1, h2, h3, h4, h5, h7, h6]
    simp only [Bool.or_self, Bool.false_eq_true, if_false, if_true]
    have : jsDrop ("partial-text:" ++ v) 13 = v := jsDrop_append ("partial-text:") v
    rw [this]

/-- Witness for the amended C8 theorem at `v = "hello"`. -/
theorem text_and_partial_text_agree_witness :
    getSmartSelector ("text:" ++ "hello") = By.xpath (containsTextXPath ("hello")) ∧
    getSmartSelector ("partial-text:" ++ "hello")
      = By.xpath (containsTextXPath ("hello")) :=
  text_and_partial_text_agree ("hello") (Or.inl (by decide))

/-! ## C10 — `findElement` vs `findElements` selector classification -/

/-- C10: inside the WebDriver-protocol driver, `findElement` classifies any
selector containing `'='` (after the XPath/`#`/`.` checks, with no
exclusion for `'['` or spaces) as attribute-equality CSS — splitting at the
first `'='` and discarding everything after a second one — while
`findElements` has no `'='` branch and passes the same selector through as
raw CSS; so the singular and plural lookups use different locator
strategies for such inputs (e.g. `data-testid=login`, or `a=b=c` showing
the discard). -/
theorem findElement_vs_findElements_locator :
    (∀ s, jsStartsWith s ("//") = false → jsStartsWith s ("(//") = false →
      jsStartsWith s ("#") = false → jsStartsWith s (".") = false →
      jsContainsChar s '=' = true →
      findElementLocator s = By.css (attrEqualityCss s) ∧
      findElementsLocator s = By.css s) ∧
    findElementLocator ("data-testid=login") = By.css ("[data-testid=\"login\"]") ∧
    findElementsLocator ("data-testid=login") = By.css ("data-testid=login") ∧
    findElementLocator ("data-testid=login") ≠ findElementsLocator ("data-testid=login") ∧
    findElementLocator ("a=b=c") = By.css ("[a=\"b\"]") := by
  refine ⟨?_, by decide, by decide, by decide, by decide⟩
  intro s h1 h2 h3 h4 h5
  unfold findElementLocator findElementsLocator
  rw [h1, h2, h3, h4, h5]
  simp

/-- Witness for the quantified part of C10 at the selector `"a=b=c"`. -/
theorem findElement_vs_findElements_locator_witness :
    findElementLocator ("a=b=c") = By.css (attrEqualityCss ("a=b=c")) ∧
    findElementsLocator ("a=b=c") = By.css ("a=b=c") :=
  findElement_vs_findElements_locator.1 ("a=b=c")
    (by decide) (by decide) (by decide) (by decide) (by decide)

/-! ## C2 — fail-fast on a non-started session -/

theorem seleniumNotReady_of_not_started (s : SeleniumState)
    (h : s.isStarted = false) : seleniumNotReady s = true := by
  simp [seleniumNotReady, h]

theorem pwNotReady_of_not_started (p : PWState)
    (h : p.isStarted = false) : pwNotReady p = true := by
  simp [pwNotReady, h]

/-- C2 (counterexample): the claim says every capture operation on a
non-started driver fails fast with the NotStarted error before performing
any work.  The Selenium `startVideoRecording` stub, called on a fresh
(never-started) driver, performs directory-creation work and then throws
the not-implemented error — not the NotStarted one. -/
theorem startVideoRecording_not_failfast_counterexample :
    freshSelenium.isStarted = false ∧
    (seleniumStartVideoRecording freshSelenium none none).result
      ≠ Except.error Err.notStarted ∧
    (seleniumStartVideoRecording freshSelenium none none).effects ≠ [] := by
  refine ⟨by decide, by decide, by decide⟩

/-- C2 (amended): on every driver instance with `started == false`, each of
the interaction operations — navigateTo, findElement, findElements, click,
sendKeys, clearText, getText, executeScript and takeScreenshot on both
drivers, plus the Playwright video-capture operations — throws the
NotStarted error before performing any work and leaves the session state
unchanged; the two Selenium video-recording *stubs* are the exception:
they skip the started check and throw the not-implemented error instead,
`startVideoRecording` only after creating the videos directory. -/
theorem not_started_fails_fast
    (s : SeleniumState) (p : PWState)
    (hs : s.isStarted = false) (hp : p.isStarted = false)
    (url selector text script iso : String)
    (nav : Option (String × String)) (pnav : Option (String × String × Bool))
    (found : Option (List Unit)) (located enabled ok ts : Bool)
    (gt : Option String) (pgt : Option (Option String))
    (outc : Option Unit) (fn bd sd vp : Option String) :
    seleniumNavigateTo s url nav = ⟨.error .notStarted, s, []⟩ ∧
    seleniumFindElement s selector located = ⟨.error .notStarted, s, []⟩ ∧
    seleniumFindElements s selector found = ⟨.error .notStarted, s, []⟩ ∧
    seleniumClick s selector located enabled ok = ⟨.error .notStarted, s, []⟩ ∧
    seleniumSendKeys s selector text located enabled ok = ⟨.error .notStarted, s, []⟩ ∧
    seleniumClearText s selector located ok = ⟨.error .notStarted, s, []⟩ ∧
    seleniumGetText s selector located gt = ⟨.error .notStarted, s, []⟩ ∧
    seleniumExecuteScript s script outc = ⟨.error .notStarted, s, []⟩ ∧
    seleniumTakeScreenshot s fn ts bd sd iso ok = ⟨.error .notStarted, s, []⟩ ∧
    pwNavigateTo p url pnav = ⟨.error .notStarted, p, []⟩ ∧
    pwFindElement p selector located = ⟨.error .notStarted, p, []⟩ ∧
    pwFindElements p selector found = ⟨.error .notStarted, p, []⟩ ∧
    pwClick p selector ok = ⟨.error .notStarted, p, []⟩ ∧
    pwSendKeys p selector text ok = ⟨.error .notStarted, p, []⟩ ∧
    pwClearText p selector ok = ⟨.error .notStarted, p, []⟩ ∧
    pwGetText p selector pgt = ⟨.error .notStarted, p, []⟩ ∧
    pwExecuteScript p script outc = ⟨.error .notStarted, p, []⟩ ∧
    pwTakeScreenshot p fn ts bd sd iso ok = ⟨.error .notStarted, p, []⟩ ∧
    pwStartVideoRecording p = ⟨.error .notStarted, p, []⟩ ∧
    pwStopVideoRecording p vp = ⟨.error .notStarted, p, []⟩ ∧
    seleniumStartVideoRecording s bd sd =
      ⟨.error (.notImplemented ("Video recording not yet implemented")), s,
        [.mkdir (videosPathOf (bd.getD s.outputDirectoryBasePath)
          (sd.getD s.videosDirectory))]⟩ ∧
    seleniumStopVideoRecording s =
      ⟨.error (.notImplemented ("Video recording not yet implemented")), s, []⟩ := by
  have h1 := seleniumNotReady_of_not_started s hs
  have h2 := pwNotReady_of_not_started p hp
  refine ⟨?_, ?_, ?_, ?_, ?_, ?_, ?_, ?_, ?_, ?_, ?_, ?_, ?_, ?_, ?_, ?_, ?_, ?_,
    ?_, ?_, ?_, ?_⟩ <;>
    simp [seleniumNavigateTo, seleniumFindElement, seleniumFindElements,
      seleniumClick, seleniumSendKeys, seleniumClearText, seleniumGetText,
      seleniumExecuteScript, seleniumTakeScreenshot, seleniumStartVideoRecording,
      seleniumStopVideoRecording, pwNavigateTo, pwFindElement, pwFindElements,
      pwClick, pwSendKeys, pwClearText, pwGetText, pwExecuteScript,
      pwTakeScreenshot, pwStartVideoRecording, pwStopVideoRecording, h1, h2]

/-- Witness for C2 at a fresh (never-started) instance of each driver. -/
theorem not_started_fails_fast_witness :
    seleniumClick freshSelenium ("#btn") true true true
      = ⟨.error .notStarted, freshSelenium, []⟩ :=
  (not_started_fails_fast freshSelenium freshPlaywright rfl rfl
    ("https://example.com") ("#btn") ("hi") ("1+1") ("2026-10-12T03:04:05.678Z")
    none none none true true true true none none none none none none none).2.2.2.1

/-! ## C3 — idempotent `start`, no-op `quit` -/

/-- C3: `start()` on an already-started driver is a warning-only no-op that
leaves the session state — hence the single live session — unchanged, and
`quit()` on a never-started (or already-quit) driver is a warning-only
no-op that does not throw, on both drivers. -/
theorem start_idempotent_quit_noop
    (s : SeleniumState) (p : PWState) (b q : Bool) (e : Env) (sp : Option String)
    (hs : s.isStarted = true) (hp : p.isStarted = true)
    (s2 : SeleniumState) (p2 : PWState)
    (hs2 : s2.isStarted = false) (hp2 : p2.isStarted = false) :
    seleniumStart s b = ⟨.ok (), s, [.warn ("Driver already started")]⟩ ∧
    pwStart p e sp b = ⟨.ok (), p, [.warn ("Driver already started")]⟩ ∧
    seleniumQuit s2 q = ⟨.ok (), s2, [.warn ("Driver not started or already quit")]⟩ ∧
    pwQuit p2 q = ⟨.ok (), p2, [.warn ("Driver not started or already quit")]⟩ := by
  refine ⟨?_, ?_, ?_, ?_⟩ <;>
    simp [seleniumStart, pwStart, seleniumQuit, pwQuit, hs, hp, hs2, hp2]

/-- Witness for C3: a started Selenium/Playwright session and a fresh one
of each. -/
theorem start_idempotent_quit_noop_witness :
    seleniumStart { freshSelenium with isStarted := true, hasDriver := true } true
      = ⟨.ok (), { freshSelenium with isStarted := true, hasDriver := true },
          [.warn ("Driver already started")]⟩ ∧
    seleniumQuit freshSelenium true
      = ⟨.ok (), freshSelenium, [.warn ("Driver not started or already quit")]⟩ := by
  have h := start_idempotent_quit_noop
    { freshSelenium with isStarted := true, hasDriver := true }
    { freshPlaywright with isStarted := true, hasPage := true } true true
    ⟨none, none, none⟩ none rfl rfl freshSelenium freshPlaywright rfl rfl
  exact ⟨h.1, h.2.2.1⟩

/-! ## C4 — plural lookups never throw; singular misses propagate -/

/-- C4: on a started session, `findElements` never throws — for *every*
engine outcome, including an engine error (`found = none`), it returns a
collection, the empty one on failure — while `findElement` on a selector
the engine cannot locate always propagates the NotFound error naming the
selector; on both drivers. -/
theorem findElements_total_findElement_throws
    (s : SeleniumState) (p : PWState)
    (hs : s.isStarted = true) (hd : s.hasDriver = true)
    (hp : p.isStarted = true) (hpg : p.hasPage = true)
    (selector : String) (found : Option (List Unit)) :
    (seleniumFindElements s selector found).result = .ok (found.getD []) ∧
    (pwFindElements p selector found).result = .ok (found.getD []) ∧
    (seleniumFindElement s selector false).result = .error (.notFound selector) ∧
    (pwFindElement p selector false).result = .error (.notFound selector) := by
  have h1 : seleniumNotReady s = false := by simp [seleniumNotReady, hs, hd]
  have h2 : pwNotReady p = false := by simp [pwNotReady, hp, hpg]
  refine ⟨?_, ?_, ?_, ?_⟩ <;>
    cases found <;>
    simp [seleniumFindElements, pwFindElements, seleniumFindElement,
      pwFindElement, h1, h2]

/-- Witness for C4 on started sessions, with the engine failing to locate. -/
theorem findElements_total_findElement_throws_witness :
    (seleniumFindElements { freshSelenium with isStarted := true, hasDriver := true }
      (".card") none).result = .ok [] ∧
    (seleniumFindElement { freshSelenium with isStarted := true, hasDriver := true }
      (".card") false).result = .error (.notFound (".card")) := by
  have h := findElements_total_findElement_throws
    { freshSelenium with isStarted := true, hasDriver := true }
    { freshPlaywright with isStarted := true, hasPage := true }
    rfl rfl rfl rfl (".card") none
  exact ⟨h.1, h.2.2.1⟩

/-! ## C5 — `safeClick` retry exhaustion -/

theorem intercalate_cons_of_ne_nil (sep x : List Effect) (l : List (List Effect))
    (h : l ≠ []) :
    List.intercalate sep (x :: l) = x ++ sep ++ List.intercalate sep l := by
  cases l with
  | nil => exact absurd rfl h
  | cons y t =>
    simp [List.intercalate, List.intersperse, List.append_assoc]

/-- On an oracle that never reports a landed click, the `safeClick` loop
runs every remaining attempt, interleaving the retry delay, and ends in the
exhaustion error. -/
theorem safeClickLoop_exhaust (oracle : Nat → AttemptOut) (selector : String)
    (maxRetries retryDelay : Nat) (hnever : ∀ n, oracle n ≠ AttemptOut.clickOk) :
    ∀ remaining attempt, 1 ≤ remaining →
    safeClickLoop oracle selector maxRetries retryDelay attempt remaining =
      (.error (safeClickFailMsg selector maxRetries),
       List.intercalate [Effect.sleep retryDelay]
         ((List.range remaining).map
           (fun i => attemptEffects oracle selector (attempt + i)))) := by
  intro remaining
  induction remaining with
  | zero => intro attempt h; omega
  | succ n ih =>
    intro attempt _
    rcases Nat.eq_zero_or_pos n with hn | hn
    · subst hn
      simp only [safeClickLoop]
      cases ho : oracle attempt with
      | clickOk => exact absurd ho (hnever attempt)
      | notLocated =>
          simp [List.intercalate, List.intersperse]
      | locatedClickFails =>
          simp [List.intercalate, List.intersperse]
    · have hne : n ≠ 0 := by omega
      have hrec := ih (attempt + 1) hn
      have hmapne : ((List.range n).map
          (fun i => attemptEffects oracle selector (attempt + 1 + i))) ≠ [] := by
        simp [List.range_eq_nil]
        omega
      have hsplit : List.intercalate [Effect.sleep retryDelay]
          ((List.range (n + 1)).map (fun i => attemptEffects oracle selector (attempt + i)))
          = attemptEffects oracle selector attempt ++ Effect.sleep retryDelay ::
            List.intercalate [Effect.sleep retryDelay]
              ((List.range n).map (fun i => attemptEffects oracle selector (attempt + 1 + i))) := by
        rw [List.range_succ_eq_map, List.map_cons, List.map_map]
        have hmap : ((fun i => attemptEffects oracle selector (attempt + i)) ∘ Nat.succ)
            = (fun i => attemptEffects oracle selector (attempt + 1 + i)) := by
          funext i
          simp [Function.comp]
          congr 1
          omega
        rw [hmap, intercalate_cons_of_ne_nil _ _ _ hmapne]
        simp
      rw [hsplit]
      simp only [safeClickLoop]
      cases ho : oracle attempt with
      | clickOk => exact absurd ho (hnever attempt)
      | notLocated =>
          rw [if_neg hne, hrec]
      | locatedClickFails =>
          rw [if_neg hne, hrec]

/-- C5: against a page where the element never becomes clickable (the
per-attempt oracle never reports a landed click), `safeClick` performs
exactly `maxRetries` attempts — each starting by re-locating the element,
and scrolling it to the viewport center before clicking whenever the locate
succeeded — separated by exactly the configured `retryDelay`, and after the
last attempt throws the error naming the selector and the attempt count,
never returning a (partial) success. -/
theorem safeClick_retry_exhaustion (oracle : Nat → AttemptOut) (selector : String)
    (maxRetries retryDelay : Nat) (hpos : 1 ≤ maxRetries)
    (hnever : ∀ n, oracle n ≠ AttemptOut.clickOk) :
    safeClick oracle selector maxRetries retryDelay =
      (.error (safeClickFailMsg selector maxRetries),
       List.intercalate [Effect.sleep retryDelay]
         ((List.range maxRetries).map
           (fun i => attemptEffects oracle selector (1 + i)))) :=
  safeClickLoop_exhaust oracle selector maxRetries retryDelay hnever maxRetries 1 hpos

/-- Witness for C5 at the defaults `maxRetries = 3`, `retryDelay = 1000`,
with an element the 5-second clickable wait never finds: three locate
attempts, two 1000ms delays, and the exhaustion error naming `#btn` and 3. -/
theorem safeClick_retry_exhaustion_witness :
    safeClick (fun _ => AttemptOut.notLocated) ("#btn")
      safeClickDefaultRetries safeClickDefaultDelay =
      (.error ("Failed to click #btn after 3 attempts"),
       [Effect.engineLocate (By.id ("btn")), Effect.sleep 1000,
        Effect.engineLocate (By.id ("btn")), Effect.sleep 1000,
        Effect.engineLocate (By.id ("btn"))]) := by
  have h := safeClick_retry_exhaustion (fun _ => AttemptOut.notLocated) ("#btn")
    safeClickDefaultRetries safeClickDefaultDelay (by decide)
    (fun n h => AttemptOut.noConfusion h)
  rw [h]
  decide

/-! ## C6 — environment-aware binary acquisition -/

/-- C6: with a serverless sandbox marker present (`isLambdaEnv`) and the
serverless Chromium unavailable, `start()` on a (supported-browser,
non-started) Playwright driver rejects with the startup error carrying the
descriptive serverless-Chromium-unavailable message, performs *no* work at
all (in particular it launches no binary — no fallback to a default local
one) and leaves the state unchanged; with the marker present and the
serverless binary available, that binary is chosen; without the marker, a
truthy `PLAYWRIGHT_CHROMIUM_EXECUTABLE_PATH` is preferred for a
chromium/chrome browser, and otherwise the engine's default installation is
used. -/
theorem serverless_acquisition
    (s : PWState) (e : Env) (launchOk : Bool) (browser p2 : String)
    (sp : Option String)
    (hs : s.isStarted = false)
    (hb : jsToLower s.options.browser = "chromium")
    (hl : isLambdaEnv e = true)
    (e2 : Env) (hl2 : isLambdaEnv e2 = false) :
    pwStart s e none launchOk =
      ⟨.error (.startupFailed ("Driver startup failed: " ++ serverlessUnavailableMsg)),
        s, []⟩ ∧
    acquireBrowserBinary e (some p2) browser = .ok (.serverless p2) ∧
    (truthy e2.playwrightChromiumExecutablePath = true →
      (browser = "chromium" ∨ browser = "chrome") →
      acquireBrowserBinary e2 sp browser
        = .ok (.custom (e2.playwrightChromiumExecutablePath.getD ("")))) ∧
    (truthy e2.playwrightChromiumExecutablePath = false →
      acquireBrowserBinary e2 sp browser = .ok .engineDefault) := by
  refine ⟨?_, ?_, ?_, ?_⟩
  · simp [pwStart, hs, hb, acquireBrowserBinary, hl]
  · simp [acquireBrowserBinary, hl]
  · intro ht hbrow
    cases hpath : e2.playwrightChromiumExecutablePath with
    | none => rw [hpath] at ht; simp [truthy] at ht
    | some path =>
        rw [hpath] at ht
        simp only [truthy, Bool.not_eq_true'] at ht
        rcases hbrow with h | h <;>
          simp [acquireBrowserBinary, hl2, hpath, ht, h]
  · intro ht
    cases hpath : e2.playwrightChromiumExecutablePath with
    | none => simp [acquireBrowserBinary, hl2, hpath]
    | some path =>
        rw [hpath] at ht
        simp only [truthy, Bool.not_eq_false] at ht
        simp [acquireBrowserBinary, hl2, hpath, ht]

/-- Witness for C6: a fresh driver in a Lambda-marked environment with the
serverless package unresolvable, and a local environment with a configured
executable path. -/
theorem serverless_acquisition_witness :
    pwStart freshPlaywright ⟨some ("fn"), none, none⟩ none true =
      ⟨.error (.startupFailed ("Driver startup failed: " ++ serverlessUnavailableMsg)),
        freshPlaywright, []⟩ ∧
    acquireBrowserBinary ⟨none, none, some ("/usr/bin/chromium")⟩ none ("chromium")
      = .ok (.custom ("/usr/bin/chromium")) := by
  have h := serverless_acquisition freshPlaywright ⟨some ("fn"), none, none⟩ true
    ("chromium") ("/opt/bin/chromium") none rfl (by decide) (by decide)
    ⟨none, none, some ("/usr/bin/chromium")⟩ (by decide)
  exact ⟨h.1, h.2.2.1 (by decide) (Or.inl rfl)⟩

/-! ## C9 — options immutability -/

/-- C9 (counterexample): the claim says the options record constructed at
driver creation is never mutated by any operation.  `ChromeSeleniumDriver.start`
on a fresh default driver assigns `options.chromeSpecific` (absent at
construction) to the merged defaults, so the options record after the call
differs from the one at construction. -/
theorem chromeStart_mutates_options_counterexample :
    freshSelenium.options.chromeSpecific = none ∧
    (chromeStart freshSelenium true).state.options.chromeSpecific
      = some defaultChromeSpecific ∧
    (chromeStart freshSelenium true).state.options ≠ freshSelenium.options := by
  refine ⟨by decide, by decide, by decide⟩

/-- C9 (amended): every operation of the two base drivers — lifecycle,
navigation, locating, interaction, extraction, script execution and capture
— leaves the options record exactly as constructed; the exceptions are the
three browser-specific subclass `start()` overrides: `ChromeSeleniumDriver.start`,
`EdgeSeleniumDriver.start` and `FirefoxSeleniumDriver.start` each overwrite
their browser's options sub-record (`chromeSpecific` / `edgeSpecific` /
`firefoxSpecific`) with the merge of that browser's defaults and the
sub-record's previous value, before launching. -/
theorem options_immutable_except_subclass_start
    (s : SeleniumState) (p : PWState) (b q ts : Bool) (e : Env)
    (url selector text script iso : String)
    (nav : Option (String × String)) (pnav : Option (String × String × Bool))
    (found : Option (List Unit)) (located enabled ok : Bool)
    (gt : Option String) (pgt : Option (Option String))
    (outc : Option Unit) (fn bd sd sp vp : Option String) :
    (seleniumStart s b).state.options = s.options ∧
    (seleniumQuit s q).state.options = s.options ∧
    (seleniumNavigateTo s url nav).state.options = s.options ∧
    (seleniumFindElement s selector located).state.options = s.options ∧
    (seleniumFindElements s selector found).state.options = s.options ∧
    (seleniumClick s selector located enabled ok).state.options = s.options ∧
    (seleniumSendKeys s selector text located enabled ok).state.options = s.options ∧
    (seleniumClearText s selector located ok).state.options = s.options ∧
    (seleniumGetText s selector located gt).state.options = s.options ∧
    (seleniumExecuteScript s script outc).state.options = s.options ∧
    (seleniumTakeScreenshot s fn ts bd sd iso ok).state.options = s.options ∧
    (seleniumStartVideoRecording s bd sd).state.options = s.options ∧
    (seleniumStopVideoRecording s).state.options = s.options ∧
    (pwStart p e sp b).state.options = p.options ∧
    (pwQuit p q).state.options = p.options ∧
    (pwNavigateTo p url pnav).state.options = p.options ∧
    (pwFindElement p selector located).state.options = p.options ∧
    (pwFindElements p selector found).state.options = p.options ∧
    (pwClick p selector ok).state.options = p.options ∧
    (pwSendKeys p selector text ok).state.options = p.options ∧
    (pwClearText p selector ok).state.options = p.options ∧
    (pwGetText p selector pgt).state.options = p.options ∧
    (pwExecuteScript p script outc).state.options = p.options ∧
    (pwTakeScreenshot p fn ts bd sd iso ok).state.options = p.options ∧
    (pwStartVideoRecording p).state.options = p.options ∧
    (pwStopVideoRecording p vp).state.options = p.options ∧
    (chromeStart s b).state.options
      = { s.options with
          chromeSpecific := some (chromeSpecificMerge s.options.chromeSpecific) } ∧
    (edgeStart s b).state.options
      = { s.options with
          edgeSpecific := some (browserTuningMerge s.options.edgeSpecific) } ∧
    (firefoxStart s b).state.options
      = { s.options with
          firefoxSpecific := some (browserTuningMerge s.options.firefoxSpecific) } := by
  refine ⟨?_, ?_, ?_, ?_, ?_, ?_, ?_, ?_, ?_, ?_, ?_, ?_, ?_, ?_, ?_, ?_, ?_, ?_,
    ?_, ?_, ?_, ?_, ?_, ?_, ?_, ?_, ?_, ?_, ?_⟩ <;>
  · simp only [seleniumStart, seleniumQuit, seleniumNavigateTo, seleniumFindElement,
      seleniumFindElements, seleniumClick, seleniumSendKeys, seleniumClearText,
      seleniumGetText, seleniumExecuteScript, seleniumTakeScreenshot,
      seleniumStartVideoRecording, seleniumStopVideoRecording, pwStart, pwQuit,
      pwNavigateTo, pwFindElement, pwFindElements, pwClick, pwSendKeys, pwClearText,
      pwGetText, pwExecuteScript, pwTakeScreenshot, pwStartVideoRecording,
      pwStopVideoRecording, chromeStart, edgeStart, firefoxStart]
    all_goals (repeat' split) <;> rfl

/-! ## C7 — timestamped artifact filenames -/

theorem not_mem_map_stampChar (d : List Char) (h : 'T' ∉ d) :
    'T' ∉ d.map stampChar := by
  intro hmem
  rw [List.mem_map] at hmem
  obtain ⟨c, hc, he⟩ := hmem
  unfold stampChar at he
  split at he
  · exact absurd he (by decide)
  · exact h (he ▸ hc)

theorem replaceFirstT_append_of_not_mem (xs ys : List Char) (h : 'T' ∉ xs) :
    replaceFirstT (xs ++ 'T' :: ys) = xs ++ '_' :: ys := by
  induction xs with
  | nil => simp [replaceFirstT]
  | cons c cs ih =>
    have hc : ¬(c = 'T') := fun he => h (he ▸ List.mem_cons_self c cs)
    have hcs : 'T' ∉ cs := fun hm => h (List.mem_cons_of_mem c hm)
    simp [replaceFirstT, hc, ih hcs]

/-- The timestamp the pipeline produces on a well-formed ISO string
`<date>T<time.millis>Z` (no `T` in the date part, 13 characters after the
`T`): the date with `:`/`.` dashed, an underscore, then only the first 8
time characters — the milliseconds are dropped, truncating to seconds. -/
theorem filenameStamp_eq (d r : List Char) (hT : 'T' ∉ d) (hr : r.length = 13) :
    filenameStamp (String.mk (d ++ 'T' :: r))
      = String.mk (d.map stampChar ++ '_' :: (r.take 8).map stampChar) := by
  unfold filenameStamp
  have hdata : (String.mk (d ++ 'T' :: r)).data = d ++ 'T' :: r := rfl
  rw [hdata, List.map_append, List.map_cons,
    show stampChar 'T' = 'T' from rfl,
    replaceFirstT_append_of_not_mem _ _ (not_mem_map_stampChar d hT)]
  have hlen : (d.map stampChar ++ '_' :: r.map stampChar).length - 5
      = (d.map stampChar).length + 9 := by
    simp [List.length_append, List.length_map, hr]
  simp only [hlen, List.take_append]
  rw [show (9 : Nat) = 8 + 1 from rfl, List.take_succ_cons, ← List.map_take]

/-- C7: with timestamping enabled, the generated filename is the base name
without its extension, then `_`, then the seconds-truncated timestamp
derived from the ISO clock string (`:` and `.` dashed, `T` to `_`,
milliseconds dropped), then the original extension; with timestamping
disabled the base name is returned unchanged (so repeats overwrite
deterministically); and two clock readings within the same second — equal
up to the millisecond field — produce the *same* filename (the collision
case). -/
theorem generateFilename_spec (d r : List Char) (b iso0 : String)
    (hT : 'T' ∉ d) (hr : r.length = 13) :
    (generateFilename (String.mk (d ++ 'T' :: r)) b true
      = String.mk (extSplit b.data).1 ++ "_"
          ++ String.mk (d.map stampChar ++ '_' :: (r.take 8).map stampChar)
          ++ String.mk (extSplit b.data).2) ∧
    generateFilename iso0 b false = b ∧
    (∀ r2 : List Char, r2.length = 13 → r.take 8 = r2.take 8 →
      generateFilename (String.mk (d ++ 'T' :: r)) b true
        = generateFilename (String.mk (d ++ 'T' :: r2)) b true) := by
  have key : ∀ r' : List Char, r'.length = 13 →
      generateFilename (String.mk (d ++ 'T' :: r')) b true
        = String.mk (extSplit b.data).1 ++ "_"
            ++ String.mk (d.map stampChar ++ '_' :: (r'.take 8).map stampChar)
            ++ String.mk (extSplit b.data).2 := by
    intro r' hr'
    rcases hbe : extSplit b.data with ⟨base, ext⟩
    simp [generateFilename, hbe, filenameStamp_eq d r' hT hr']
  refine ⟨key r hr, by simp [generateFilename], ?_⟩
  intro r2 hr2 htake
  rw [key r hr, key r2 hr2, htake]

/-- Witness for C7 at the clock reading `2026-10-12T03:04:05.678Z` and base
name `shot.png`. -/
theorem generateFilename_spec_witness :
    generateFilename (String.mk (("2026-10-12").data ++ 'T' :: ("03:04:05.678Z").data))
      ("shot.png") true = "shot_2026-10-12_03-04-05.png" := by
  rw [(generateFilename_spec (("2026-10-12").data) (("03:04:05.678Z").data)
    ("shot.png") ("x") (by decide) (by decide)).1]
  decide

end WebAutomator
